/-
Verification of the SafeWorld crime-map front end
(src/web/assets/js/colorblind-accessibility.js).

Modelling conventions.
JavaScript strings are modelled as Lean String values over their character
lists; the data is ASCII, so the ASCII case maps below coincide with the
JavaScript toLowerCase and toUpperCase on every string that occurs.
JavaScript objects used as string-keyed maps are modelled as association
lists in insertion order, which matches the Object.entries enumeration
order for the non-index keys that occur in the data.
Array.prototype.sort with a consistent comparator is modelled by the
stable sort jsSort below; ECMAScript pins the result of sort to the unique
stable permutation ordered by the comparator, so any compliant engine
computes exactly the list jsSort computes.
String.prototype.localeCompare is modelled as code-point lexicographic
comparison.
An undefined numeric value is modelled as none; JavaScript relational
comparisons against undefined are false, and the truthiness tests treat
both undefined and zero as falsy, which jsLeNum and jsNumOr reproduce.
-/
import Mathlib

set_option maxHeartbeats 1000000

/-- ASCII lower-casing of one character, the effect of toLowerCase on the data. -/
def charToLower (c : Char) : Char :=
  if 65 ≤ c.toNat ∧ c.toNat ≤ 90 then Char.ofNat (c.toNat + 32) else c

/-- ASCII upper-casing of one character, the effect of toUpperCase on the data. -/
def charToUpper (c : Char) : Char :=
  if 97 ≤ c.toNat ∧ c.toNat ≤ 122 then Char.ofNat (c.toNat - 32) else c

/-- Model of String.prototype.toLowerCase. -/
def jsToLower (s : String) : String := String.mk (s.toList.map charToLower)

/-- Model of String.prototype.toUpperCase. -/
def jsToUpper (s : String) : String := String.mk (s.toList.map charToUpper)

/-- Whitespace test used by trim and by the whitespace regex. -/
def wsChar (c : Char) : Bool := c.toNat = 32 || (9 ≤ c.toNat && c.toNat ≤ 13)

/-- Model of String.prototype.trim: strip whitespace from both ends. -/
def jsTrim (s : String) : String :=
  String.mk (((s.toList.dropWhile wsChar).reverse.dropWhile wsChar).reverse)

/-- Does pat occur as a contiguous run inside s. -/
def infixAt : List Char → List Char → Bool
  | pat, [] => pat.isEmpty
  | pat, c :: rest => pat.isPrefixOf (c :: rest) || infixAt pat rest

/-- Model of String.prototype.includes. -/
def strIncludes (s sub : String) : Bool := infixAt sub.toList s.toList

/-- Model of String.prototype.startsWith. -/
def strStartsWith (s p : String) : Bool := p.toList.isPrefixOf s.toList

/-- Remove the first occurrence of pat, modelling s.replace(pat, two quotes). -/
def replaceFirstAux (pat : List Char) : List Char → List Char
  | [] => []
  | c :: rest =>
    if pat.isPrefixOf (c :: rest) then List.drop pat.length (c :: rest)
    else c :: replaceFirstAux pat rest

/-- Model of s.replace(pat, empty string) for a plain string pattern. -/
def jsReplaceFirst (s pat : String) : String :=
  String.mk (replaceFirstAux pat.toList s.toList)

/-- Remove every whitespace character, modelling replace of the whitespace
run regex by the empty string. -/
def stripSpaces (s : String) : String :=
  String.mk (s.toList.filter (fun c => !wsChar c))

/-- First character upper-cased and the remainder lower-cased: the fallback
branch of formatCrimeType. -/
def capFirstLowerRest (s : String) : String :=
  match s.toList with
  | [] => ""
  | c :: rest => String.mk (charToUpper c :: rest.map charToLower)

/-- Code-point lexicographic strict order on character lists, the model of
the order underlying localeCompare. -/
def strLtB : List Char → List Char → Bool
  | [], [] => false
  | [], _ :: _ => true
  | _ :: _, [] => false
  | a :: as, b :: bs =>
    if a.toNat < b.toNat then true
    else if b.toNat < a.toNat then false
    else strLtB as bs

/-- Model of String.prototype.localeCompare as a sign value. -/
def localeCompare (a b : String) : Int :=
  if strLtB a.toList b.toList then -1
  else if strLtB b.toList a.toList then 1
  else 0

/-- Nonstrict code-point order on strings. -/
def strLeB (a b : String) : Bool := !(strLtB b.toList a.toList)

/-- Insert x in front of the first element y whose comparison c x y is not
positive.  Building block of jsSort. -/
def jsInsert (c : α → α → Int) (x : α) : List α → List α
  | [] => [x]
  | y :: ys => if 0 < c x y then y :: jsInsert c x ys else x :: y :: ys

/-- Stable sort by a JavaScript style comparator: the unique output that is
both ordered by the comparator and stable, which is what ECMAScript
specifies for Array.prototype.sort under a consistent comparator. -/
def jsSort (c : α → α → Int) : List α → List α
  | [] => []
  | x :: xs => jsInsert c x (jsSort c xs)

/-- The two supported cities, the keys of cityConfigs. -/
inductive City where
  | london
  | nyc
  deriving DecidableEq

/-- The areaType field of cityConfigs. -/
def areaTypeOf : City → String
  | City.london => "wards"
  | City.nyc => "precincts"

/-- The areaTypeLabel field of cityConfigs. -/
def areaTypeLabelOf : City → String
  | City.london => "Ward"
  | City.nyc => "Precinct"

/-- A sub-area record (ward or precinct) as consumed by the front end. -/
structure AreaRecord where
  name : String
  totalCrimes : Option Int := none
  crimeTypes : Option (List (String × Int)) := none
  deriving DecidableEq

/-- A borough record as consumed by the front end.  London records carry
score, totalCrimes and wards; NYC records carry safety_score, total crime
data and either precincts or a flat crime_breakdown.  A missing field is
none, the model of an undefined property. -/
structure BoroughRecord where
  name : String
  score : Option Int := none
  safety_score : Option Int := none
  totalCrimes : Option Int := none
  wards : Option (List AreaRecord) := none
  precincts : Option (List AreaRecord) := none
  crime_breakdown : Option (List (String × Int)) := none
  deriving DecidableEq

/-- Dynamic property access boroughData[areaType]. -/
def areasFor (b : BoroughRecord) (t : String) : Option (List AreaRecord) :=
  if t = "wards" then b.wards
  else if t = "precincts" then b.precincts
  else none

/-- One element of the searchIndex array built by buildSearchIndex.
Borough entries leave searchTerms, borough and areaData undefined. -/
structure SearchEntry where
  type : String
  name : String
  searchName : String
  searchTerms : Option (List String) := none
  borough : Option String := none
  data : BoroughRecord
  score : Int
  areaData : Option AreaRecord := none
  deriving DecidableEq

/-- JavaScript comparison (score <= n) where score may be undefined:
every relational comparison against undefined is false. -/
def jsLeNum : Option Int → Int → Bool
  | none, _ => false
  | some a, b => decide (a ≤ b)

/-- getSafetyLevel from the source, lines 548 to 554.  The argument is an
optional score so that the undefined case is represented. -/
def getSafetyLevel (score : Option Int) : String :=
  if jsLeNum score 3 then "Very Safe"
  else if jsLeNum score 5 then "Safe"
  else if jsLeNum score 7 then "Moderate"
  else if jsLeNum score 8 then "Caution"
  else "High Risk"

/-- The crimeTypeMap literal inside formatCrimeType, lines 801 to 830. -/
def crimeTypeMap : List (String × String) :=
  [("VIOLENCEAGAINSTTHEPERSON", "Violence Against Person"),
   ("VEHICLEOFFENCES", "Vehicle Offences"),
   ("VEHICLE OFFENCES", "Vehicle Offences"),
   ("BURGLARY", "Burglary"),
   ("THEFT", "Theft"),
   ("ROBBERY", "Robbery"),
   ("DRUGOFFENCES", "Drug Offences"),
   ("DRUG OFFENCES", "Drug Offences"),
   ("PUBLICORDEROFFENCES", "Public Order"),
   ("PUBLIC ORDER", "Public Order"),
   ("CRIMINALOFFENCES", "Criminal Offences"),
   ("CRIMINAL DAMAGE", "Criminal Damage"),
   ("FRAUD", "Fraud"),
   ("SEXUALOFFENCES", "Sexual Offences"),
   ("SEXUAL OFFENCES", "Sexual Offences"),
   ("ASSAULT", "Assault"),
   ("WEAPONS OFFENCES", "Weapons Offences"),
   ("HARASSMENT", "Harassment"),
   ("TRESPASSING", "Trespassing"),
   ("HOMICIDE", "Homicide"),
   ("ARSON", "Arson"),
   ("KIDNAPPING", "Kidnapping"),
   ("GAMBLING", "Gambling"),
   ("ALCOHOL OFFENCES", "Alcohol Offences"),
   ("REGULATORY VIOLATIONS", "Regulatory Violations"),
   ("CUSTODY OFFENCES", "Custody Offences"),
   ("MISCELLANEOUS", "Miscellaneous"),
   ("OTHER", "Other")]

/-- formatCrimeType from the source, lines 799 to 834: look the label up
upper-cased with whitespace removed, then upper-cased as given, then fall
back to capitalising the raw label.  All map values are nonempty strings,
so the JavaScript truthiness chain is the option fallback chain. -/
def formatCrimeType (t : String) : String :=
  let upperType := stripSpaces (jsToUpper t)
  match crimeTypeMap.lookup upperType with
  | some v => v
  | none =>
    match crimeTypeMap.lookup (jsToUpper t) with
    | some v => v
    | none => capFirstLowerRest t

/-- JavaScript assignment m[k] = (m[k] || 0) + v on a string-keyed object:
update the existing key in place or append a new one. -/
def objAddAt : List (String × Int) → String → Int → List (String × Int)
  | [], k, v => [(k, v)]
  | (q, w) :: rest, k, v =>
    if q = k then (q, w + v) :: rest else (q, w) :: objAddAt rest k v

/-- The allCrimes accumulation of getTopCrimeType, lines 740 to 754: for
NYC with a crime_breakdown use it directly, otherwise sum the raw
crimeTypes labels of every area of the borough. -/
def aggCrimes (city : City) (b : BoroughRecord) : List (String × Int) :=
  if city = City.nyc ∧ b.crime_breakdown.isSome then
    b.crime_breakdown.getD []
  else
    ((areasFor b (areaTypeOf city)).getD []).foldl
      (fun acc a =>
        (a.crimeTypes.getD []).foldl (fun m kv => objAddAt m kv.1 kv.2) acc)
      []

/-- getTopCrimeType from the source, lines 739 to 758: sort the aggregated
entries by descending count, take the first, format its label; the
sentinel is returned when there are no entries. -/
def getTopCrimeType (city : City) (b : BoroughRecord) : String :=
  match (jsSort (fun x y : String × Int => y.2 - x.2) (aggCrimes city b)).head? with
  | some top => formatCrimeType top.1
  | none => "N/A"

/-- JavaScript a || b on an optional number: undefined and zero are falsy. -/
def jsNumOr (a : Option Int) (b : Int) : Int :=
  match a with
  | some v => if v = 0 then b else v
  | none => b

/-- The score field stored on every search entry, line 1484 and line 1509:
boroughData.score || boroughData.safety_score || boroughData.totalCrimes || 0. -/
def entryScore (b : BoroughRecord) : Int :=
  jsNumOr b.score (jsNumOr b.safety_score (jsNumOr b.totalCrimes 0))

/-- The searchTerms array built for one area, lines 1493 to 1500: the
lower-cased name always; for NYC names containing the exact text
"Precinct " also the name with that first occurrence removed, the same
with a pct marker, and the same with a precinct marker. -/
def buildAreaTerms (city : City) (areaName : String) : List String :=
  if city = City.nyc ∧ strIncludes areaName "Precinct " then
    let num := jsReplaceFirst areaName "Precinct "
    [jsToLower areaName, num, "pct " ++ num, "precinct " ++ num]
  else [jsToLower areaName]

/-- The borough object pushed at line 1479. -/
def boroughEntry (b : BoroughRecord) : SearchEntry :=
  { type := "borough"
    name := b.name
    searchName := jsToLower b.name
    searchTerms := none
    borough := none
    data := b
    score := entryScore b
    areaData := none }

/-- The area object pushed at line 1502. -/
def areaEntry (city : City) (b : BoroughRecord) (a : AreaRecord) : SearchEntry :=
  { type := jsToLower (areaTypeLabelOf city)
    name := a.name
    searchName := jsToLower a.name
    searchTerms := some (buildAreaTerms city a.name)
    borough := some b.name
    data := b
    score := entryScore b
    areaData := some a }

/-- The push of one area entry inside the inner forEach of
buildSearchIndex, skipping areas with an empty name. -/
def areaPush (city : City) (b : BoroughRecord) (acc : List SearchEntry) (a : AreaRecord) :
    List SearchEntry :=
  if a.name = "" then acc else acc ++ [areaEntry city b a]

/-- The body of the outer forEach of buildSearchIndex: push the borough
entry, then its area entries in order, skipping records with an empty
name. -/
def boroughPush (city : City) (acc : List SearchEntry) (p : String × BoroughRecord) :
    List SearchEntry :=
  if p.2.name = "" then acc
  else
    let acc1 := acc ++ [boroughEntry p.2]
    match areasFor p.2 (areaTypeOf city) with
    | some areas => areas.foldl (areaPush city p.2) acc1
    | none => acc1

/-- buildSearchIndex from the source, lines 1464 to 1517: starting from an
empty array, for each borough of the dataset in order push one borough
entry, then one entry per area in order. -/
def buildSearchIndex (city : City) (cd : List (String × BoroughRecord)) : List SearchEntry :=
  cd.foldl (boroughPush city) []

/-- The filter predicate of handleSearch, lines 1534 to 1544. -/
def matchesQuery (q : String) (e : SearchEntry) : Bool :=
  if strIncludes e.searchName q then true
  else
    match e.searchTerms with
    | some ts => ts.any (fun t => strIncludes t q)
    | none => false

/-- The aExact computation of the comparator, line 1547: does the search
name or any search term start with the query. -/
def exactHit (q : String) (e : SearchEntry) : Bool :=
  strStartsWith e.searchName q ||
    (match e.searchTerms with
     | some ts => ts.any (fun t => strStartsWith t q)
     | none => false)

/-- Prefix rank of an entry: 0 when the query is a prefix hit, else 1. -/
def exactRank (q : String) (e : SearchEntry) : Int := if exactHit q e then 0 else 1

/-- Kind rank of an entry: 0 for borough entries, else 1. -/
def typeRank (e : SearchEntry) : Int := if e.type = "borough" then 0 else 1

/-- The comparator of handleSearch, lines 1545 to 1556. -/
def searchCmp (q : String) (a b : SearchEntry) : Int :=
  if exactRank q a ≠ exactRank q b then exactRank q a - exactRank q b
  else if typeRank a ≠ typeRank b then typeRank a - typeRank b
  else localeCompare a.name b.name

/-- handleSearch from the source, lines 1519 to 1557, as the list of
results it renders: trim and lower-case the text, return nothing for an
empty query, otherwise filter, sort by the comparator and keep the first
eight. -/
def handleSearch (idx : List SearchEntry) (rawText : String) : List SearchEntry :=
  let q := jsToLower (jsTrim rawText)
  if q.length = 0 then []
  else (jsSort (searchCmp q) (idx.filter (matchesQuery q))).take 8

/-- The mutable globals of the page: currentCity, crimeData and
searchIndex. -/
structure AppState where
  currentCity : City
  crimeData : List (String × BoroughRecord)
  searchIndex : List SearchEntry
  deriving DecidableEq

/-- JavaScript object assignment obj[k] = v: overwrite an existing key in
place or append a new one. -/
def objSet (m : List (String × BoroughRecord)) (k : String) (v : BoroughRecord) :
    List (String × BoroughRecord) :=
  match m with
  | [] => [(k, v)]
  | (q, w) :: rest => if q = k then (q, v) :: rest else (q, w) :: objSet rest k v

/-- Completion of the asynchronous load started by initMap, lines 383 to
537: each fetched borough is stored under its upper-cased name, then
buildSearchIndex runs over the populated data. -/
def dataLoaded (s : AppState) (raw : List BoroughRecord) : AppState :=
  let cd := raw.foldl (fun m b => objSet m (jsToUpper b.name) b) s.crimeData
  { s with crimeData := cd, searchIndex := buildSearchIndex s.currentCity cd }

/-- The synchronous body of switchCity, lines 1682 to 1718: set the city,
clear crimeData, leave searchIndex untouched; the rebuild only happens
when the asynchronous load completes. -/
def switchCityStep (s : AppState) (c : City) : AppState :=
  { currentCity := c, crimeData := [], searchIndex := s.searchIndex }

/-- The three-level result order of the spec, claim C1: strictly better
prefix rank first; on equal prefix rank boroughs before areas; on equal
kind ascending name comparison. -/
def rankLE (q : String) (a b : SearchEntry) : Prop :=
  exactRank q a < exactRank q b ∨
    (exactRank q a = exactRank q b ∧
      (typeRank a < typeRank b ∨
        (typeRank a = typeRank b ∧ strLeB a.name b.name = true)))

/-- Modelled from the spec, claim C9: the first entry of maximal count in
aggregation order, the first-seen tie break. -/
def jsFirstMax : List (String × Int) → Option (String × Int)
  | [] => none
  | x :: xs =>
    match jsFirstMax xs with
    | none => some x
    | some m => if x.2 < m.2 then some m else some x

/-- Modelled from the spec, claim C2: aggregation keyed by the canonical
label, so raw labels that differ only in casing or spacing share one
bucket. -/
def canonicalAgg (city : City) (b : BoroughRecord) : List (String × Int) :=
  ((areasFor b (areaTypeOf city)).getD []).foldl
    (fun acc a =>
      (a.crimeTypes.getD []).foldl
        (fun m kv => objAddAt m (formatCrimeType kv.1) kv.2) acc)
    []

/-- Modelled from the spec, claim C2: the top type determined over the
canonical buckets with the first-seen tie break. -/
def canonicalTopType (city : City) (b : BoroughRecord) : String :=
  match jsFirstMax (canonicalAgg city b) with
  | none => "N/A"
  | some m => m.1

/-- One borough entry followed by its area entries: the per-borough block
of the buildSearchIndex output, used to state order preservation. -/
def boroughBlock (city : City) (b : BoroughRecord) : List SearchEntry :=
  if b.name = "" then []
  else
    boroughEntry b ::
      (match areasFor b (areaTypeOf city) with
       | some areas =>
         areas.filterMap (fun a => if a.name = "" then none else some (areaEntry city b a))
       | none => [])

/-- Borough used by the spec ranking example: a prefix match for lon. -/
def bLondonderry : BoroughRecord := { name := "Londonderry", score := some 4 }

/-- Borough used by the spec ranking example: a substring match for lon. -/
def bWestLondon : BoroughRecord := { name := "West London", score := some 6 }

/-- Index holding the two ranking example boroughs. -/
def idxLon : List SearchEntry :=
  buildSearchIndex City.london
    [("LONDONDERRY", bLondonderry), ("WEST LONDON", bWestLondon)]

/-- Borough used by the spec kind tie break example. -/
def bGreenwich : BoroughRecord := { name := "Greenwich", score := some 3 }

/-- Borough owning the area Green Ward of the kind tie break example. -/
def bRiverton : BoroughRecord :=
  { name := "Riverton", score := some 5,
    wards := some [{ name := "Green Ward", totalCrimes := some 10 }] }

/-- Index holding the kind tie break example entries. -/
def idxGreen : List SearchEntry :=
  buildSearchIndex City.london [("GREENWICH", bGreenwich), ("RIVERTON", bRiverton)]

/-- Area contributing three vehicle offences under the spaced raw label. -/
def wVeh1 : AreaRecord := { name := "Ward One", crimeTypes := some [("VEHICLE OFFENCES", 3)] }

/-- Area contributing two vehicle offences under the unspaced raw label. -/
def wVeh2 : AreaRecord := { name := "Ward Two", crimeTypes := some [("VEHICLEOFFENCES", 2)] }

/-- Area contributing four burglaries. -/
def wBur : AreaRecord := { name := "Ward Three", crimeTypes := some [("BURGLARY", 4)] }

/-- The borough of the spec aggregation example: 3 plus 2 vehicle offences
under two raw spellings. -/
def bTwoAreas : BoroughRecord := { name := "Hackney", wards := some [wVeh1, wVeh2] }

/-- The two-spelling borough extended with a four-count burglary area,
separating raw-keyed from canonical-keyed aggregation observably. -/
def bThreeAreas : BoroughRecord := { name := "Hackney", wards := some [wVeh1, wVeh2, wBur] }

/-- A borough whose every area has an empty crime breakdown. -/
def bEmptyAgg : BoroughRecord :=
  { name := "Emptyshire", wards := some [{ name := "Quiet Ward" }] }

/-- A London area whose name matches the Ward token pattern of the spec. -/
def aWard5 : AreaRecord := { name := "Ward 5", totalCrimes := some 7 }

/-- London borough owning the Ward 5 area. -/
def bCamden : BoroughRecord := { name := "Camden", score := some 4, wards := some [aWard5] }

/-- Index built for the London alias counterexample. -/
def idxCamden : List SearchEntry := buildSearchIndex City.london [("CAMDEN", bCamden)]

/-- The NYC area of the spec alias example. -/
def aPrecinct75 : AreaRecord := { name := "Precinct 75", totalCrimes := some 12 }

/-- An NYC area without the Precinct marker. -/
def aDowntown : AreaRecord := { name := "Downtown", totalCrimes := some 3 }

/-- An NYC area whose name matches the precinct pattern only up to case. -/
def aPrecinctUpper : AreaRecord := { name := "PRECINCT 9" }

/-- NYC borough owning the three alias example areas. -/
def bBrooklyn : BoroughRecord :=
  { name := "Brooklyn", safety_score := some 6,
    precincts := some [aPrecinct75, aDowntown, aPrecinctUpper] }

/-- Index built for the NYC alias example. -/
def idxBrooklyn : List SearchEntry := buildSearchIndex City.nyc [("BROOKLYN", bBrooklyn)]

/-- NYC borough owning only the upper-cased precinct name. -/
def bUpperOnly : BoroughRecord :=
  { name := "Queens", safety_score := some 4, precincts := some [aPrecinctUpper] }

/-- Borough with no score at all but 42 total crimes. -/
def bNoScore : BoroughRecord := { name := "Alpha", totalCrimes := some 42 }

/-- Borough with a zero score and a safety_score of 7. -/
def bZeroScore : BoroughRecord := { name := "Beta", score := some 0, safety_score := some 7 }

/-- Borough with an ordinary score of 5. -/
def bFive : BoroughRecord := { name := "Gamma", score := some 5 }

/-- Borough with no numeric field at all. -/
def bNothing : BoroughRecord := { name := "Delta" }

/-- The London borough loaded before the city switch. -/
def bWestminster : BoroughRecord := { name := "Westminster", score := some 5 }

/-- The initial page state before any data has loaded. -/
def appStart : AppState := { currentCity := City.london, crimeData := [], searchIndex := [] }

/-- State after the London data load has completed. -/
def stLondon : AppState := dataLoaded appStart [bWestminster]

/-- State immediately after the synchronous part of switching to NYC,
before the NYC fetch has resolved. -/
def stAfterSwitch : AppState := switchCityStep stLondon City.nyc

/-- The NYC borough arriving with the new data load. -/
def bBronx : BoroughRecord := { name := "Bronx", safety_score := some 8 }

/-- Unfolding of the strict string order on cons cells. -/
theorem strLtB_cons_iff (x y : Char) (xs ys : List Char) :
    strLtB (x :: xs) (y :: ys) = true ↔
      (x.toNat < y.toNat ∨ (x.toNat = y.toNat ∧ strLtB xs ys = true)) := by
  by_cases h1 : x.toNat < y.toNat
  · simp [strLtB, h1]
  · by_cases h2 : y.toNat < x.toNat
    · have h3 : x.toNat ≠ y.toNat := by omega
      simp [strLtB, h1, h2, h3]
    · have h3 : x.toNat = y.toNat := by omega
      simp [strLtB, h1, h2, h3]

/-- Unfolding of the negated strict string order on cons cells. -/
theorem strLtB_cons_false_iff (x y : Char) (xs ys : List Char) :
    strLtB (x :: xs) (y :: ys) = false ↔
      (y.toNat < x.toNat ∨ (x.toNat = y.toNat ∧ strLtB xs ys = false)) := by
  rw [← Bool.not_eq_true, strLtB_cons_iff]
  cases hL : strLtB xs ys <;> simp only [hL] <;> constructor <;> intro h <;>
    simp_all <;> omega

/-- Transitivity of the nonstrict string order stated on its negation. -/
theorem strLtB_false_trans :
    ∀ (a b c : List Char), strLtB a b = false → strLtB b c = false → strLtB a c = false := by
  intro a
  induction a with
  | nil =>
    intro b c hab hbc
    cases b with
    | nil =>
      cases c with
      | nil => rfl
      | cons z zs => simp [strLtB] at hbc
    | cons y ys => simp [strLtB] at hab
  | cons x xs ih =>
    intro b c hab hbc
    cases c with
    | nil => simp [strLtB]
    | cons z zs =>
      cases b with
      | nil => simp [strLtB] at hbc
      | cons y ys =>
        rw [strLtB_cons_false_iff] at hab hbc ⊢
        rcases hab with h1 | ⟨h1, h1r⟩
        · rcases hbc with h2 | ⟨h2, h2r⟩
          · exact Or.inl (by omega)
          · exact Or.inl (by omega)
        · rcases hbc with h2 | ⟨h2, h2r⟩
          · exact Or.inl (by omega)
          · exact Or.inr ⟨by omega, ih ys zs h1r h2r⟩

/-- At least one direction of the strict string order fails. -/
theorem strLtB_false_total : ∀ (a b : List Char), strLtB a b = false ∨ strLtB b a = false := by
  intro a
  induction a with
  | nil =>
    intro b
    cases b with
    | nil => exact Or.inl rfl
    | cons y ys => exact Or.inr (by simp [strLtB])
  | cons x xs ih =>
    intro b
    cases b with
    | nil => exact Or.inl (by simp [strLtB])
    | cons y ys =>
      rcases Nat.lt_trichotomy x.toNat y.toNat with h | h | h
      · exact Or.inr ((strLtB_cons_false_iff y x ys xs).mpr (Or.inl h))
      · rcases ih ys with hx | hx
        · exact Or.inl ((strLtB_cons_false_iff x y xs ys).mpr (Or.inr ⟨h, hx⟩))
        · exact Or.inr ((strLtB_cons_false_iff y x ys xs).mpr (Or.inr ⟨h.symm, hx⟩))
      · exact Or.inl ((strLtB_cons_false_iff x y xs ys).mpr (Or.inl h))

/-- The sign returned by localeCompare is nonpositive exactly when the
second string does not strictly precede the first. -/
theorem localeCompare_nonpos_iff (a b : String) :
    localeCompare a b ≤ 0 ↔ strLtB b.toList a.toList = false := by
  simp only [localeCompare, String.toList]
  by_cases h1 : strLtB a.data b.data
  · rcases strLtB_false_total a.data b.data with hx | hx
    · rw [h1] at hx; cases hx
    · simp [h1, hx]
  · by_cases h2 : strLtB b.data a.data
    · simp [h1, h2]
    · simp [h1, h2]

/-- Membership in an insertion step. -/
theorem mem_jsInsert {α : Type} {c : α → α → Int} {x z : α} :
    ∀ {l : List α}, z ∈ jsInsert c x l → z = x ∨ z ∈ l := by
  intro l
  induction l with
  | nil => intro h; simp [jsInsert] at h; exact Or.inl h
  | cons y ys ih =>
    simp only [jsInsert]
    split
    · intro h
      rcases List.mem_cons.mp h with rfl | h
      · exact Or.inr (List.mem_cons_self _ _)
      · rcases ih h with h | h
        · exact Or.inl h
        · exact Or.inr (List.mem_cons_of_mem _ h)
    · intro h
      rcases List.mem_cons.mp h with rfl | h
      · exact Or.inl rfl
      · exact Or.inr h

/-- Sorting does not invent elements. -/
theorem mem_jsSort {α : Type} {c : α → α → Int} {z : α} :
    ∀ {l : List α}, z ∈ jsSort c l → z ∈ l := by
  intro l
  induction l with
  | nil => intro h; simp [jsSort] at h
  | cons x xs ih =>
    intro h
    rcases mem_jsInsert h with rfl | h
    · exact List.mem_cons_self _ _
    · exact List.mem_cons_of_mem _ (ih h)

/-- Inserting into a comparator-ordered list keeps it ordered, given a
total and transitive nonpositivity relation. -/
theorem pairwise_jsInsert {α : Type} {c : α → α → Int}
    (htot : ∀ a b, c a b ≤ 0 ∨ c b a ≤ 0)
    (htrans : ∀ a b d, c a b ≤ 0 → c b d ≤ 0 → c a d ≤ 0) (x : α) :
    ∀ {l : List α}, l.Pairwise (fun a b => c a b ≤ 0) →
      (jsInsert c x l).Pairwise (fun a b => c a b ≤ 0) := by
  intro l
  induction l with
  | nil => intro _; simp [jsInsert]
  | cons y ys ih =>
    intro h
    rcases List.pairwise_cons.mp h with ⟨hy, hys⟩
    simp only [jsInsert]
    split
    · rename_i hpos
      refine List.pairwise_cons.mpr ⟨?_, ih hys⟩
      intro z hz
      rcases mem_jsInsert hz with rfl | hz
      · rcases htot z y with hc | hc
        · omega
        · exact hc
      · exact hy z hz
    · rename_i hneg
      have hxy : c x y ≤ 0 := by omega
      refine List.pairwise_cons.mpr ⟨?_, h⟩
      intro z hz
      rcases List.mem_cons.mp hz with rfl | hz
      · exact hxy
      · exact htrans x y z hxy (hy z hz)

/-- The sorted output is ordered by the comparator. -/
theorem pairwise_jsSort {α : Type} {c : α → α → Int}
    (htot : ∀ a b, c a b ≤ 0 ∨ c b a ≤ 0)
    (htrans : ∀ a b d, c a b ≤ 0 → c b d ≤ 0 → c a d ≤ 0) :
    ∀ (l : List α), (jsSort c l).Pairwise (fun a b => c a b ≤ 0) := by
  intro l
  induction l with
  | nil => simp [jsSort]
  | cons x xs ih => exact pairwise_jsInsert htot htrans x ih

/-- The head of an insertion step. -/
theorem head_jsInsert {α : Type} (c : α → α → Int) (x : α) (l : List α) :
    (jsInsert c x l).head? =
      some (match l.head? with
            | none => x
            | some y => if 0 < c x y then y else x) := by
  cases l with
  | nil => rfl
  | cons y ys =>
    simp only [jsInsert, List.head?_cons]
    split <;> simp

/-- The head of the descending count sort is the first-seen maximum: the
stable sort by descending count puts the earliest maximal entry first. -/
theorem head_jsSort_count :
    ∀ (l : List (String × Int)),
      (jsSort (fun x y : String × Int => y.2 - x.2) l).head? = jsFirstMax l := by
  intro l
  induction l with
  | nil => rfl
  | cons x xs ih =>
    simp only [jsSort, jsFirstMax]
    rw [head_jsInsert, ← ih]
    cases ho : (jsSort (fun x y : String × Int => y.2 - x.2) xs).head? with
    | none => simp
    | some m =>
      simp only
      by_cases h : x.2 < m.2
      · rw [if_pos (by omega : (0 : Int) < m.2 - x.2), if_pos h]
      · rw [if_neg (by omega : ¬((0 : Int) < m.2 - x.2)), if_neg h]

/-- The prefix rank takes only the two values of the ternary. -/
theorem exactRank_cases (q : String) (e : SearchEntry) :
    exactRank q e = 0 ∨ exactRank q e = 1 := by
  unfold exactRank
  split <;> simp

/-- The kind rank takes only the two values of the ternary. -/
theorem typeRank_cases (e : SearchEntry) : typeRank e = 0 ∨ typeRank e = 1 := by
  unfold typeRank
  split <;> simp

/-- The comparator of handleSearch is nonpositive exactly on the
three-level rank relation of the spec. -/
theorem searchCmp_nonpos_iff (q : String) (a b : SearchEntry) :
    searchCmp q a b ≤ 0 ↔ rankLE q a b := by
  by_cases hE : exactRank q a = exactRank q b
  · by_cases hT : typeRank a = typeRank b
    · have hc : searchCmp q a b = localeCompare a.name b.name := by
        simp [searchCmp, hE, hT]
      rw [hc, localeCompare_nonpos_iff]
      simp only [rankLE, hE, hT, lt_irrefl, false_or, true_and]
      simp [strLeB]
    · have hc : searchCmp q a b = typeRank a - typeRank b := by
        simp [searchCmp, hE, hT]
      rw [hc]
      simp only [rankLE, hE, lt_irrefl, false_or, true_and, hT, false_and, or_false]
      rcases typeRank_cases a with h1 | h1 <;> rcases typeRank_cases b with h2 | h2 <;>
        rw [h1, h2] <;> rw [h1, h2] at hT <;> constructor <;> intro h <;> omega
  · have hc : searchCmp q a b = exactRank q a - exactRank q b := by
      simp [searchCmp, hE]
    rw [hc]
    simp only [rankLE, hE, false_and, or_false]
    rcases exactRank_cases q a with h1 | h1 <;> rcases exactRank_cases q b with h2 | h2 <;>
      rw [h1, h2] <;> rw [h1, h2] at hE <;> constructor <;> intro h <;> omega

/-- The rank relation is total. -/
theorem rankLE_total (q : String) (a b : SearchEntry) : rankLE q a b ∨ rankLE q b a := by
  rcases lt_trichotomy (exactRank q a) (exactRank q b) with h | h | h
  · exact Or.inl (Or.inl h)
  · rcases lt_trichotomy (typeRank a) (typeRank b) with h2 | h2 | h2
    · exact Or.inl (Or.inr ⟨h, Or.inl h2⟩)
    · rcases strLtB_false_total a.name.data b.name.data with h3 | h3
      · refine Or.inr (Or.inr ⟨h.symm, Or.inr ⟨h2.symm, ?_⟩⟩)
        simp [strLeB, h3]
      · refine Or.inl (Or.inr ⟨h, Or.inr ⟨h2, ?_⟩⟩)
        simp [strLeB, h3]
    · exact Or.inr (Or.inr ⟨h.symm, Or.inl h2⟩)
  · exact Or.inr (Or.inl h)

/-- The rank relation is transitive. -/
theorem rankLE_trans (q : String) (a b c : SearchEntry)
    (hab : rankLE q a b) (hbc : rankLE q b c) : rankLE q a c := by
  rcases hab with h1 | ⟨e1, h1⟩
  · rcases hbc with h2 | ⟨e2, h2⟩
    · exact Or.inl (lt_trans h1 h2)
    · exact Or.inl (by rw [← e2]; exact h1)
  · rcases hbc with h2 | ⟨e2, h2⟩
    · exact Or.inl (by rw [e1]; exact h2)
    · refine Or.inr ⟨e1.trans e2, ?_⟩
      rcases h1 with t1 | ⟨te1, t1⟩
      · rcases h2 with t2 | ⟨te2, t2⟩
        · exact Or.inl (lt_trans t1 t2)
        · exact Or.inl (by rw [← te2]; exact t1)
      · rcases h2 with t2 | ⟨te2, t2⟩
        · exact Or.inl (by rw [te1]; exact t2)
        · refine Or.inr ⟨te1.trans te2, ?_⟩
          simp only [strLeB, Bool.not_eq_true', Bool.not_eq_true] at t1 t2 ⊢
          exact strLtB_false_trans c.name.toList b.name.toList a.name.toList t2 t1

/-- The comparator is total in the nonpositive sense. -/
theorem searchCmp_total (q : String) (a b : SearchEntry) :
    searchCmp q a b ≤ 0 ∨ searchCmp q b a ≤ 0 := by
  rcases rankLE_total q a b with h | h
  · exact Or.inl ((searchCmp_nonpos_iff q a b).mpr h)
  · exact Or.inr ((searchCmp_nonpos_iff q b a).mpr h)

/-- The comparator is transitive in the nonpositive sense. -/
theorem searchCmp_trans (q : String) (a b c : SearchEntry)
    (hab : searchCmp q a b ≤ 0) (hbc : searchCmp q b c ≤ 0) : searchCmp q a c ≤ 0 :=
  (searchCmp_nonpos_iff q a c).mpr
    (rankLE_trans q a b c ((searchCmp_nonpos_iff q a b).mp hab)
      ((searchCmp_nonpos_iff q b c).mp hbc))

/-- The inner area fold appends exactly the kept area entries in order. -/
theorem areaPush_foldl (city : City) (b : BoroughRecord) :
    ∀ (areas : List AreaRecord) (acc : List SearchEntry),
      areas.foldl (areaPush city b) acc =
        acc ++ areas.filterMap
          (fun a => if a.name = "" then none else some (areaEntry city b a)) := by
  intro areas
  induction areas with
  | nil => intro acc; simp
  | cons a as ih =>
    intro acc
    by_cases h : a.name = ""
    · simp [areaPush, h, ih]
    · simp [areaPush, h, ih]

/-- One outer fold step appends exactly the block of its borough. -/
theorem boroughPush_eq (city : City) (acc : List SearchEntry) (p : String × BoroughRecord) :
    boroughPush city acc p = acc ++ boroughBlock city p.2 := by
  unfold boroughPush boroughBlock
  by_cases h : p.2.name = ""
  · simp [h]
  · simp only [if_neg h]
    cases harea : areasFor p.2 (areaTypeOf city) with
    | none => simp
    | some areas => simp [areaPush_foldl]

/-- The outer fold from any accumulator appends the concatenation of the
per-borough blocks in dataset order. -/
theorem foldl_boroughPush (city : City) :
    ∀ (cd : List (String × BoroughRecord)) (acc : List SearchEntry),
      cd.foldl (boroughPush city) acc =
        acc ++ (cd.map (fun p => boroughBlock city p.2)).flatten := by
  intro cd
  induction cd with
  | nil => intro acc; simp
  | cons p ps ih =>
    intro acc
    simp only [List.foldl_cons, List.map_cons, List.flatten_cons]
    rw [boroughPush_eq, ih]
    simp

/-- buildSearchIndex emits the borough blocks in dataset order: one
borough entry, then that borough's area entries in their order. -/
theorem buildSearchIndex_flatten (city : City) (cd : List (String × BoroughRecord)) :
    buildSearchIndex city cd = (cd.map (fun p => boroughBlock city p.2)).flatten := by
  unfold buildSearchIndex
  rw [foldl_boroughPush]
  simp

/-- Every entry of the built index carries a borough record of the
dataset it was built from. -/
theorem mem_buildSearchIndex_data {city : City} {cd : List (String × BoroughRecord)}
    {e : SearchEntry} (h : e ∈ buildSearchIndex city cd) : e.data ∈ cd.map Prod.snd := by
  rw [buildSearchIndex_flatten] at h
  rcases List.mem_flatten.mp h with ⟨blk, hblk, he⟩
  rcases List.mem_map.mp hblk with ⟨p, hp, rfl⟩
  have hdata : e.data = p.2 := by
    unfold boroughBlock at he
    by_cases h2 : p.2.name = ""
    · rw [if_pos h2] at he
      simp at he
    · rw [if_neg h2] at he
      rcases List.mem_cons.mp he with rfl | he
      · rfl
      · cases harea : areasFor p.2 (areaTypeOf city) with
        | none =>
          rw [harea] at he
          simp at he
        | some areas =>
          rw [harea] at he
          rcases List.mem_filterMap.mp he with ⟨a, _, hsome⟩
          by_cases h3 : a.name = ""
          · rw [if_pos h3] at hsome
            cases hsome
          · rw [if_neg h3] at hsome
            cases hsome
            rfl
  rw [hdata]
  exact List.mem_map.mpr ⟨p, hp, rfl⟩

/-- Results of handleSearch come from the index it was given. -/
theorem mem_of_mem_handleSearch {idx : List SearchEntry} {raw : String} {e : SearchEntry}
    (h : e ∈ handleSearch idx raw) : e ∈ idx := by
  unfold handleSearch at h
  by_cases hq : (jsToLower (jsTrim raw)).length = 0
  · rw [if_pos hq] at h
    cases h
  · rw [if_neg hq] at h
    have h1 := List.take_subset 8 _ h
    have h2 := mem_jsSort h1
    exact List.mem_of_mem_filter h2

/-- C1: for every index and query text the handleSearch result list obeys
the three precedence levels of the spec ranking: better prefix rank first,
then boroughs before areas, then ascending name comparison; in particular
lon ranks Londonderry before West London and green ranks the borough
Greenwich before the area Green Ward. -/
theorem handleSearch_ranking_levels :
    (∀ (idx : List SearchEntry) (raw : String),
        (handleSearch idx raw).Pairwise (rankLE (jsToLower (jsTrim raw)))) ∧
      (handleSearch idxLon "lon").map (fun e => e.name) = ["Londonderry", "West London"] ∧
      (handleSearch idxGreen "green").map (fun e => e.name) = ["Greenwich", "Green Ward"] := by
  refine ⟨?_, by decide, by decide⟩
  intro idx raw
  simp only [handleSearch]
  by_cases hq : (jsToLower (jsTrim raw)).length = 0
  · rw [if_pos hq]
    exact List.Pairwise.nil
  · rw [if_neg hq]
    have hp := pairwise_jsSort (searchCmp_total (jsToLower (jsTrim raw)))
      (searchCmp_trans (jsToLower (jsTrim raw)))
      (idx.filter (matchesQuery (jsToLower (jsTrim raw))))
    have hp2 := hp.imp
      (fun hab => (searchCmp_nonpos_iff (jsToLower (jsTrim raw)) _ _).mp hab)
    exact List.Pairwise.sublist (List.take_sublist 8 _) hp2

/-- C2 counterexample: aggregation is keyed by the raw label, not the
canonical one, so a borough holding 3 spaced plus 2 unspaced vehicle
offences and 4 burglaries reports Burglary, while the canonical collapse
of the spec would report Vehicle Offences with total 5. -/
theorem getTopCrimeType_raw_counterexample :
    getTopCrimeType City.london bThreeAreas = "Burglary" ∧
      canonicalTopType City.london bThreeAreas = "Vehicle Offences" ∧
      getTopCrimeType City.london bThreeAreas ≠ canonicalTopType City.london bThreeAreas := by
  decide

/-- C2 amended: getTopCrimeType keys its aggregation by the raw label, so
the two spellings stay in separate buckets of 3 and 2; the winning raw
bucket is only formatted for display, which is why the two-area example
still shows Vehicle Offences; a third label outweighing each raw bucket
separately wins even though the canonical bucket would be larger. -/
theorem getTopCrimeType_raw_amended :
    aggCrimes City.london bTwoAreas = [("VEHICLE OFFENCES", 3), ("VEHICLEOFFENCES", 2)] ∧
      getTopCrimeType City.london bTwoAreas = "Vehicle Offences" ∧
      canonicalAgg City.london bTwoAreas = [("Vehicle Offences", 5)] ∧
      getTopCrimeType City.london bThreeAreas = "Burglary" := by
  decide

/-- C3: getSafetyLevel maps every integer score through the inclusive
boundaries 3, 5, 7 and 8, clamping low scores to Very Safe and high
scores to High Risk. -/
theorem getSafetyLevel_boundaries (s : Int) :
    (s ≤ 3 → getSafetyLevel (some s) = "Very Safe") ∧
      (3 < s → s ≤ 5 → getSafetyLevel (some s) = "Safe") ∧
      (5 < s → s ≤ 7 → getSafetyLevel (some s) = "Moderate") ∧
      (7 < s → s ≤ 8 → getSafetyLevel (some s) = "Caution") ∧
      (8 < s → getSafetyLevel (some s) = "High Risk") ∧
      getSafetyLevel (some (-5)) = "Very Safe" ∧
      getSafetyLevel (some 15) = "High Risk" := by
  refine ⟨?_, ?_, ?_, ?_, ?_, by decide, by decide⟩
  · intro h
    simp [getSafetyLevel, jsLeNum, h]
  · intro h1 h2
    simp [getSafetyLevel, jsLeNum, show ¬(s ≤ 3) by omega, h2]
  · intro h1 h2
    simp [getSafetyLevel, jsLeNum, show ¬(s ≤ 3) by omega, show ¬(s ≤ 5) by omega, h2]
  · intro h1 h2
    simp [getSafetyLevel, jsLeNum, show ¬(s ≤ 3) by omega, show ¬(s ≤ 5) by omega,
      show ¬(s ≤ 7) by omega, h2]
  · intro h
    simp [getSafetyLevel, jsLeNum, show ¬(s ≤ 3) by omega, show ¬(s ≤ 5) by omega,
      show ¬(s ≤ 7) by omega, show ¬(s ≤ 8) by omega]

/-- Witness for C3 at concrete scores inside two of the bands. -/
theorem getSafetyLevel_boundaries_check :
    getSafetyLevel (some 4) = "Safe" ∧ getSafetyLevel (some 9) = "High Risk" :=
  ⟨(getSafetyLevel_boundaries 4).2.1 (by decide) (by decide),
   (getSafetyLevel_boundaries 9).2.2.2.2.1 (by decide)⟩

/-- C4 counterexample: an undefined score is not rejected with an error;
getSafetyLevel falls through every comparison and returns the ordinary
category High Risk. -/
theorem getSafetyLevel_undefined_counterexample :
    getSafetyLevel none = "High Risk" ∧
      "High Risk" ∈ ["Very Safe", "Safe", "Moderate", "Caution", "High Risk"] := by
  decide

/-- C4 amended: on an undefined score getSafetyLevel returns High Risk,
because each comparison against undefined is false; no error is raised,
and the value is not coerced to zero, which would give Very Safe. -/
theorem getSafetyLevel_undefined_amended :
    getSafetyLevel none = "High Risk" ∧
      getSafetyLevel (some 0) = "Very Safe" ∧
      getSafetyLevel none ≠ getSafetyLevel (some 0) := by
  decide

/-- C5 counterexample: alias derivation is not driven by the area type
label pattern of the spec: a London area named Ward 5 gets no aliases at
all, only its lower-cased name, and querying pct 5 finds nothing; an NYC
area named PRECINCT 9 also gets no aliases because the source tests for
the exact text Precinct with a trailing space, case sensitively. -/
theorem buildSearchIndex_alias_counterexample :
    idxCamden.map (fun e => e.searchTerms) = [none, some ["ward 5"]] ∧
      handleSearch idxCamden "pct 5" = [] ∧
      (buildSearchIndex City.nyc [("QUEENS", bUpperOnly)]).map (fun e => e.searchTerms) =
        [none, some ["precinct 9"]] := by
  decide

/-- C5 amended: aliases are derived only for NYC areas whose name contains
the exact case-sensitive text Precinct followed by a space; three terms
are then appended after the lower-cased name, built from the name with
that first occurrence removed and not themselves lower-cased; all other
areas carry only their lower-cased name and no error occurs; an area
named Precinct 75 is found by the queries 75 and pct 75. -/
theorem buildSearchIndex_alias_amended :
    idxBrooklyn.map (fun e => e.searchTerms) =
        [none, some ["precinct 75", "75", "pct 75", "precinct 75"],
          some ["downtown"], some ["precinct 9"]] ∧
      (handleSearch idxBrooklyn "75").map (fun e => e.name) = ["Precinct 75"] ∧
      (handleSearch idxBrooklyn "pct 75").map (fun e => e.name) = ["Precinct 75"] := by
  decide

/-- C6 counterexample: the synchronous part of switchCity clears the
dataset but not the search index, so after switching London to NYC and
before the NYC data arrives, a query still returns the Westminster entry
while the current dataset holds no borough at all. -/
theorem switchCity_stale_counterexample :
    (handleSearch stAfterSwitch.searchIndex "west").map (fun e => e.name) = ["Westminster"] ∧
      stAfterSwitch.currentCity = City.nyc ∧
      stAfterSwitch.crimeData = [] := by
  decide

/-- C6 amended: once the data load completing the switch has run, every
entry any query returns carries a borough record of the current dataset;
staleness is eliminated at load completion, not by switchCity itself. -/
theorem query_after_reload_sound (s : AppState) (c : City) (raw : List BoroughRecord)
    (q : String) (e : SearchEntry)
    (h : e ∈ handleSearch (dataLoaded (switchCityStep s c) raw).searchIndex q) :
    e.data ∈ ((dataLoaded (switchCityStep s c) raw).crimeData).map Prod.snd := by
  have h1 : e ∈ (dataLoaded (switchCityStep s c) raw).searchIndex :=
    mem_of_mem_handleSearch h
  have h2 : (dataLoaded (switchCityStep s c) raw).searchIndex
      = buildSearchIndex c ((dataLoaded (switchCityStep s c) raw).crimeData) := rfl
  rw [h2] at h1
  exact mem_buildSearchIndex_data h1

/-- Witness for C6 amended: after switching to NYC and loading the Bronx
record, the entry found for the query bro carries a record of the new
dataset. -/
theorem query_after_reload_sound_check :
    (boroughEntry bBronx).data ∈
      ((dataLoaded (switchCityStep stLondon City.nyc) [bBronx]).crimeData).map Prod.snd :=
  query_after_reload_sound stLondon City.nyc [bBronx] "bro" (boroughEntry bBronx) (by decide)

/-- C7 counterexample: the index builder does not leave a missing score
unset: a borough with no score and no safety_score but 42 total crimes
gets the substituted numeric score 42 on its search entry. -/
theorem entryScore_substitution_counterexample :
    bNoScore.score = none ∧
      bNoScore.safety_score = none ∧
      bNoScore.totalCrimes = some 42 ∧
      (buildSearchIndex City.london [("ALPHA", bNoScore)]).map (fun e => e.score) = [42] := by
  decide

/-- C7 amended: every search entry carries the first truthy value of
score, safety_score and totalCrimes, with zero as the final default; a
zero score is itself skipped as falsy, so an unset score and a zero score
are indistinguishable on the entry. -/
theorem entryScore_substitution_amended :
    (buildSearchIndex City.london
        [("ALPHA", bNoScore), ("BETA", bZeroScore), ("GAMMA", bFive), ("DELTA", bNothing)]).map
        (fun e => e.score) = [42, 7, 5, 0] ∧
      entryScore { name := "Zed", score := some 0 } = entryScore { name := "Zed" } := by
  decide

/-- C8: handleSearch never fails and returns the empty list both for an
empty or whitespace-only query and for a query matching no entry. -/
theorem handleSearch_empty_query (idx : List SearchEntry) (raw : String) :
    (jsTrim raw = "" → handleSearch idx raw = []) ∧
      ((∀ e ∈ idx, matchesQuery (jsToLower (jsTrim raw)) e = false) →
        handleSearch idx raw = []) ∧
      handleSearch idx "" = [] ∧
      handleSearch idx "   " = [] := by
  refine ⟨?_, ?_, rfl, rfl⟩
  · intro h
    unfold handleSearch
    rw [h]
    rfl
  · intro hall
    by_cases hq : (jsToLower (jsTrim raw)).length = 0
    · simp only [handleSearch]
      rw [if_pos hq]
    · simp only [handleSearch]
      rw [if_neg hq]
      have hf : idx.filter (matchesQuery (jsToLower (jsTrim raw))) = [] := by
        apply List.filter_eq_nil_iff.mpr
        intro a ha
        rw [hall a ha]
        simp
      rw [hf]
      rfl

/-- Witness for C8: the contract discharged on a concrete index for a
whitespace query and for a query matching nothing. -/
theorem handleSearch_empty_query_check :
    handleSearch idxCamden "   " = [] ∧ handleSearch idxCamden "zzz" = [] :=
  ⟨(handleSearch_empty_query idxCamden "   ").1 (by decide),
   (handleSearch_empty_query idxCamden "zzz").2.1 (by decide)⟩

/-- C9: the reported top crime type is the first-seen label of maximal
aggregated count, the stable tie break, and a borough with no crime type
entries reports the sentinel rather than failing. -/
theorem getTopCrimeType_first_seen (city : City) (b : BoroughRecord) :
    getTopCrimeType city b =
        (match jsFirstMax (aggCrimes city b) with
         | none => "N/A"
         | some m => formatCrimeType m.1) ∧
      (aggCrimes city b = [] → getTopCrimeType city b = "N/A") := by
  constructor
  · unfold getTopCrimeType
    rw [head_jsSort_count]
    cases jsFirstMax (aggCrimes city b) <;> rfl
  · intro h
    unfold getTopCrimeType
    rw [h]
    rfl

/-- Witness for C9: a borough whose areas carry no crime data reports the
sentinel. -/
theorem getTopCrimeType_first_seen_check : getTopCrimeType City.london bEmptyAgg = "N/A" :=
  (getTopCrimeType_first_seen City.london bEmptyAgg).2 (by decide)

/-- C10: index building is a pure deterministic function of its inputs,
and its output is the concatenation of the per-borough blocks in dataset
order, a borough entry followed by that borough's area entries in their
stored order. -/
theorem buildSearchIndex_deterministic :
    (∀ (city : City) (cd : List (String × BoroughRecord)),
        buildSearchIndex city cd = buildSearchIndex city cd) ∧
      (∀ (city : City) (cd : List (String × BoroughRecord)),
        buildSearchIndex city cd = (cd.map (fun p => boroughBlock city p.2)).flatten) :=
  ⟨fun _ _ => rfl, fun city cd => buildSearchIndex_flatten city cd⟩
